import Mathlib

/-!
Verification of the SIP account registration control plane
(`src/sip/sipaccount.cpp` / `sipaccount.h` of the jami-daemon corpus).

This file is a shallow embedding of the registration logic:
the relevant C++ functions are translated into executable Lean
definitions (machine integers become `Nat`/`Int` with explicit
wrap-around where it matters; fallible operations return `Option`),
and the behavioural properties of the specification are proved as
theorems about those definitions.

Functions belonging to external libraries (pjlib / pjsip) or to
repository headers absent from the corpus (`ip_utils`) are modelled
from the specification; each such definition carries a doc comment
starting with `Modelled from the spec:`.
-/

namespace SipAccount

/-! ## Registration states

Enumerated as used by `sipaccount.cpp` (`RegistrationState::...`). -/

inductive RegistrationState where
  | UNREGISTERED
  | TRYING
  | REGISTERED
  | ERROR_GENERIC
  | ERROR_AUTH
  | ERROR_HOST
  | ERROR_SERVICE_UNAVAILABLE
  deriving DecidableEq, Repr

/-! ## Re-registration scheduler (SIPAccount::scheduleReregistration)

`sipaccount.cpp` lines 2079-2122; retry interval constants at lines
93-94; jitter distributions declared in `sipaccount.h` lines 522-523. -/

/-- `static constexpr unsigned REGISTRATION_FIRST_RETRY_INTERVAL = 60; // seconds` -/
def REGISTRATION_FIRST_RETRY_INTERVAL : Nat := 60

/-- `static constexpr unsigned REGISTRATION_RETRY_INTERVAL = 300; // seconds` -/
def REGISTRATION_RETRY_INTERVAL : Nat := 300

/-- Support of `std::uniform_int_distribution<int> delay10ZeroDist_ {-10000, 10000}`:
every value drawn lies in [-10000, 10000]. -/
def delay10ZeroDist (j : Int) : Prop := -10000 ≤ j ∧ j ≤ 10000

/-- Support of `std::uniform_int_distribution<unsigned int> delay10PosDist_ {0, 10000}`:
every value drawn lies in [0, 10000]. -/
def delay10PosDist (j : Int) : Prop := 0 ≤ j ∧ j ≤ 10000

instance (j : Int) : Decidable (delay10ZeroDist j) := by
  unfold delay10ZeroDist
  infer_instance

instance (j : Int) : Decidable (delay10PosDist j) := by
  unfold delay10PosDist
  infer_instance

/-- `pj_time_val`: seconds and milliseconds, both signed. -/
structure PjTimeVal where
  sec : Int
  msec : Int
  deriving DecidableEq, Repr

/-- Modelled from the spec: `pj_time_val_normalize` (external pjlib) —
"normalize overflow of the millisecond component into seconds".
The total duration in milliseconds is preserved and the millisecond
component is brought into [0, 1000). -/
def pj_time_val_normalize (t : PjTimeVal) : PjTimeVal :=
  let total := t.sec * 1000 + t.msec
  { sec := total / 1000, msec := total % 1000 }

/-- Total duration of a time value, in milliseconds. -/
def PjTimeVal.totalMs (t : PjTimeVal) : Int := t.sec * 1000 + t.msec

/-- Base delay chosen by `scheduleReregistration`:
`delay.sec = auto_rereg_.attempt_cnt ? REGISTRATION_RETRY_INTERVAL
                                     : REGISTRATION_FIRST_RETRY_INTERVAL;` -/
def reregDelayBase (attempt_cnt : Nat) : Nat :=
  if attempt_cnt ≠ 0 then REGISTRATION_RETRY_INTERVAL else REGISTRATION_FIRST_RETRY_INTERVAL

/-- The jitter block of `scheduleReregistration` (lines 2106-2116), for an
arbitrary whole-second base delay.  `jzero` is the value drawn from
`delay10ZeroDist_`, `jpos` the value drawn from `delay10PosDist_`:

    delay.msec = 0;
    if (delay.sec >= 10) { delay.msec = delay10ZeroDist_(rand); }
    else { delay.sec = 0; delay.msec = delay10PosDist_(rand); }
    pj_time_val_normalize(&delay);
-/
def jitteredDelay (baseSec : Nat) (jzero jpos : Int) : PjTimeVal :=
  let d : PjTimeVal :=
    if (baseSec : Int) ≥ 10 then { sec := (baseSec : Int), msec := jzero }
    else { sec := 0, msec := jpos }
  pj_time_val_normalize d

/-- The delay computed by one `scheduleReregistration` event, given the
current attempt counter and the two drawn jitter values. -/
def scheduleReregDelay (attempt_cnt : Nat) (jzero jpos : Int) : PjTimeVal :=
  jitteredDelay (reregDelayBase attempt_cnt) jzero jpos

/-! ## Direct-IP profile predicate (SIPAccount::isIP2IP)

`sipaccount.cpp` lines 1800-1804: `return hostname_.empty();` -/

def isIP2IP (hostname : String) : Bool := hostname.isEmpty

/-- Observable effects of `SIPAccount::doUnregister` (lines 953-975):
the unREGISTER is sent only when the account is not the direct-IP
profile, auto-retry state is reset, and the release callback receives
`not isIP2IP()`. -/
structure DoUnregisterResult where
  sentUnregister : Bool
  resetAutoReg : Bool
  releasedCbArg : Bool
  deriving DecidableEq, Repr

def doUnregister (hostname : String) : DoUnregisterResult :=
  { sentUnregister := !(isIP2IP hostname)
    resetAutoReg := true
    releasedCbArg := !(isIP2IP hostname) }

/-! ## SIP status codes (pjsip constants used by sipaccount.cpp) -/

def PJSIP_SC_OK : Int := 200
def PJSIP_SC_ACCEPTED : Int := 202
def PJSIP_SC_UNAUTHORIZED : Int := 401
def PJSIP_SC_FORBIDDEN : Int := 403
def PJSIP_SC_NOT_FOUND : Int := 404
def PJSIP_SC_PROXY_AUTHENTICATION_REQUIRED : Int := 407
def PJSIP_SC_REQUEST_TIMEOUT : Int := 408
def PJSIP_SC_INTERNAL_SERVER_ERROR : Int := 500
def PJSIP_SC_BAD_GATEWAY : Int := 502
def PJSIP_SC_SERVICE_UNAVAILABLE : Int := 503
def PJSIP_SC_SERVER_TIMEOUT : Int := 504

/-- `PJSIP_IS_STATUS_IN_CLASS(status_code, code_class)` (pjsip macro):
`(status_code/100 == code_class/100)` with C integer division, which
truncates toward zero (`Int.tdiv`). -/
def PJSIP_IS_STATUS_IN_CLASS (status_code code_class : Int) : Bool :=
  status_code.tdiv 100 == code_class.tdiv 100

/-! ## REGISTER outcome handling (SIPAccount::onRegister)

`sipaccount.cpp` lines 1102-1188. -/

/-- The fields of `pjsip_regc_cbparam` that `onRegister` reads.
`status_ok` is `param->status == PJ_SUCCESS` (transport-level success);
`code` is the SIP status code; `regcMatches` is
`param->regc == getRegistrationInfo()`. -/
structure RegcCbParam where
  status_ok : Bool
  code : Int
  expiration : Int
  regcMatches : Bool
  deriving DecidableEq, Repr

/-- Observable effects of one `onRegister` callback:
whether `destroyRegistrationInfo()` ran, the `setRegistrationState`
transition performed (state and numeric detail code), whether
`resetAutoRegistration()` ran, and whether the retry switch at lines
1165-1178 invoked `scheduleReregistration()`. -/
structure OnRegisterResult where
  destroyed : Bool
  state : Option (RegistrationState × Int)
  resetAutoReg : Bool
  scheduleReregCalled : Bool
  deriving DecidableEq, Repr

def onRegister (p : RegcCbParam) : OnRegisterResult :=
  if p.regcMatches = false then
    { destroyed := false, state := none, resetAutoReg := false, scheduleReregCalled := false }
  else
    let base : OnRegisterResult :=
      if p.status_ok = false then
        { destroyed := true, state := some (.ERROR_GENERIC, p.code),
          resetAutoReg := false, scheduleReregCalled := false }
      else if p.code < 0 ∨ 300 ≤ p.code then
        let st : RegistrationState :=
          if p.code = PJSIP_SC_FORBIDDEN then .ERROR_AUTH
          else if p.code = PJSIP_SC_NOT_FOUND then .ERROR_HOST
          else if p.code = PJSIP_SC_REQUEST_TIMEOUT then .ERROR_HOST
          else if p.code = PJSIP_SC_SERVICE_UNAVAILABLE then .ERROR_SERVICE_UNAVAILABLE
          else .ERROR_GENERIC
        { destroyed := true, state := some (st, p.code),
          resetAutoReg := false, scheduleReregCalled := false }
      else if PJSIP_IS_STATUS_IN_CLASS p.code 200 then
        if p.expiration < 1 then
          { destroyed := true, state := some (.UNREGISTERED, p.code),
            resetAutoReg := true, scheduleReregCalled := false }
        else
          { destroyed := false, state := some (.REGISTERED, p.code),
            resetAutoReg := true, scheduleReregCalled := false }
      else
        { destroyed := false, state := none, resetAutoReg := false, scheduleReregCalled := false }
    let retry : Bool :=
      p.code == PJSIP_SC_REQUEST_TIMEOUT || p.code == PJSIP_SC_INTERNAL_SERVER_ERROR ||
      p.code == PJSIP_SC_BAD_GATEWAY || p.code == PJSIP_SC_SERVICE_UNAVAILABLE ||
      p.code == PJSIP_SC_SERVER_TIMEOUT || PJSIP_IS_STATUS_IN_CLASS p.code 600
    { base with scheduleReregCalled := retry }

/-- First guard of `scheduleReregistration` (line 2082):
`if (!isUsable()) return;` — the timer is armed only on a usable
account (assuming the external timer scheduling call succeeds). -/
def scheduleReregistrationArms (usable : Bool) : Bool := usable

/-- A retry timer actually gets armed by an `onRegister` callback iff
the retry switch invokes `scheduleReregistration()` and the account is
usable. -/
def onRegisterSchedulesRetry (usable : Bool) (p : RegcCbParam) : Bool :=
  (onRegister p).scheduleReregCalled && scheduleReregistrationArms usable

/-! ## IPv4 addresses

The model covers accounts whose contact address is an IPv4 address;
address strings that are not dotted-quad IPv4 literals are treated as
unparseable (the string-comparison fallback path of the source). -/

structure Ipv4 where
  a : Nat
  b : Nat
  c : Nat
  d : Nat
  deriving DecidableEq, Repr

/-- A socket address: IPv4 address plus port, as compared by
`pj_sockaddr_cmp` (family, address bytes, then port). -/
structure SockAddr where
  ip : Ipv4
  port : Nat
  deriving DecidableEq, Repr

/-- Modelled from the spec: `IpAddr::isPrivate` (`ip_utils`, not in the
corpus) — "private (non-private)" addresses are the RFC 1918 ranges
10/8, 172.16/12, 192.168/16, and loopback 127/8. -/
def Ipv4.isPrivate (ip : Ipv4) : Bool :=
  ip.a == 10 ||
  (ip.a == 172 && decide (16 ≤ ip.b) && decide (ip.b ≤ 31)) ||
  (ip.a == 192 && ip.b == 168) ||
  ip.a == 127

/-- `isPrivate` lifted to a possibly-unparsed address: an address that
did not parse is not reported private (the invalid-address default). -/
def optIsPrivate : Option Ipv4 → Bool
  | some ip => ip.isPrivate
  | none => false

/-! ## register() hostname resolution (SIPAccount::doRegister1_)

`sipaccount.cpp` lines 841-868. -/

/-- Which path `doRegister1_` takes: the direct-IP profile calls
`doRegister2_()` immediately; otherwise the registrar hostname is
resolved asynchronously. -/
inductive DoRegister1Path where
  | directIp
  | resolve
  deriving DecidableEq, Repr

def doRegister1Path (hostname : String) : DoRegister1Path :=
  if isIP2IP hostname then .directIp else .resolve

/-- Observable effects of the resolution continuation of `doRegister1_`
(lines 854-867): on an empty address list it sets a registration state
and stops; otherwise it stores the first address and continues with
`doRegister2_` (the only way `sendRegister()` is reached on this path). -/
structure DoRegisterResolveOutcome where
  state : Option (RegistrationState × Int)
  hostIp : Option Ipv4
  proceededToRegister2 : Bool
  deriving DecidableEq, Repr

def doRegister1ResolveCb (host_ips : List Ipv4) : DoRegisterResolveOutcome :=
  if host_ips.isEmpty then
    { state := some (.ERROR_GENERIC, PJSIP_SC_NOT_FOUND), hostIp := none,
      proceededToRegister2 := false }
  else
    { state := none, hostIp := host_ips.head?, proceededToRegister2 := true }

/-! ## Address-string parsing helpers

`pj_sockaddr_parse` (pjlib) applied to dotted-quad IPv4 literals; any
other string fails to parse in this model and takes the source's
string-comparison fallback. -/

def splitOnDot : List Char → List (List Char)
  | [] => [[]]
  | c :: rest =>
    if c = '.' then [] :: splitOnDot rest
    else
      match splitOnDot rest with
      | [] => [[c]]
      | g :: gs => (c :: g) :: gs

def digitsToNat (cs : List Char) : Nat :=
  cs.foldl (fun acc c => acc * 10 + (c.toNat - 48)) 0

def parseOctet (cs : List Char) : Option Nat :=
  if cs.isEmpty || !(cs.all Char.isDigit) || decide (3 < cs.length) then none
  else
    let n := digitsToNat cs
    if n ≤ 255 then some n else none

def parseIpv4Chars (cs : List Char) : Option Ipv4 :=
  match (splitOnDot cs).map parseOctet with
  | [some x, some y, some z, some w] => some ⟨x, y, z, w⟩
  | _ => none

def parseIpv4 (s : String) : Option Ipv4 := parseIpv4Chars s.data

/-- `IpAddr::toString()` of an IPv4 address: the dotted-quad form. -/
def Ipv4.render (ip : Ipv4) : String :=
  Nat.repr ip.a ++ "." ++ Nat.repr ip.b ++ "." ++ Nat.repr ip.c ++ "." ++ Nat.repr ip.d

/-- `pj_stricmp(..) == 0`: case-insensitive string equality. -/
def strCaseEq (s t : String) : Bool :=
  s.data.map Char.toLower == t.data.map Char.toLower

/-! ## Contact header formatting (SIPAccount::printContactHeader)

`sipaccount.cpp` lines 1588-1625, for a build where neither of the
Android/Apple push-notification provider tags is compiled in. -/

def printContactHeader (username displayName address : String) (port : Nat)
    (secure : Bool) (deviceKey : String) : String :=
  let quotedDisplayName := if displayName.isEmpty then "" else "\"" ++ displayName ++ "\" "
  let scheme := if secure then "sips" else "sip"
  let transport := if secure then ";transport=tls" else ""
  let pn := if deviceKey.isEmpty then "" else ";pn-param=;pn-prid=" ++ deviceKey
  quotedDisplayName ++ "<" ++ scheme ++ ":" ++ username ++
    (if username.isEmpty then "" else "@") ++ address ++ ":" ++ toString port ++
    transport ++ pn ++ ">"

/-! ## NAT address reconciliation (SIPAccount::checkNATAddress)

`sipaccount.cpp` lines 1909-2052. -/

/-- The response data `checkNATAddress` reads: Via header fields
(`rport_param`, `sent_by`, `recvd_param`), the receiving transport's
default port / security flag / identity-change indicator
(`via_tp_ != tp`), and the response's source address string
(`pkt_info.src_name`). -/
structure NatCheckInput where
  rport_param : Int
  sent_by_port : Nat
  sent_by_host : String
  recvd_param : String
  tpDefaultPort : Nat
  tpSecure : Bool
  tpChanged : Bool
  srcName : String
  deriving DecidableEq, Repr

/-- The account state `checkNATAddress` reads and writes: the current
contact address (`getContactAddress()`), the contact header, the data
feeding `printContactHeader`, the stored Via override
(`via_addr_` host and port), and the published-address fields. -/
structure AccountNatState where
  contactAddress : SockAddr
  contactHeader : String
  username : String
  displayName : String
  deviceKey : String
  viaAddrHost : String
  viaAddrPort : Nat
  publishedSameasLocal : Bool
  publishedIpAddress : String
  deriving DecidableEq, Repr

/-- Observed port extraction (lines 1918-1929): prefer the Via `rport`
parameter when the peer supports it (`rport_param ≥ 1`), else the
`sent-by` port, else the transport's default port. -/
def natObservedPort (inp : NatCheckInput) : Nat :=
  if inp.rport_param < 1 then
    if inp.sent_by_port = 0 then inp.tpDefaultPort else inp.sent_by_port
  else inp.rport_param.toNat

/-- Observed Via address extraction (line 1931): prefer the `received`
parameter; otherwise the `sent-by` host.  (The IPv6 square-bracket
normalization of lines 1934-1935 is the identity on the IPv4 address
strings of this model.) -/
def natViaAddr (inp : NatCheckInput) : String :=
  if inp.recvd_param.isEmpty then inp.sent_by_host else inp.recvd_param

/-- The Via-override and published-address bookkeeping performed before
the comparison (lines 1939-1952); it runs on every call, including the
ones that return "unchanged". -/
def natUpdateBookkeeping (st : AccountNatState) (inp : NatCheckInput) : AccountNatState :=
  let first := st.viaAddrHost.isEmpty || inp.tpChanged
  { st with
    viaAddrHost := if first then natViaAddr inp else st.viaAddrHost
    viaAddrPort := if first then natObservedPort inp else st.viaAddrPort
    publishedSameasLocal := false
    publishedIpAddress := natViaAddr inp }

/-- The contact address with the default-port substitution
(lines 1957-1962). -/
def natContactAddr (st : AccountNatState) (inp : NatCheckInput) : SockAddr :=
  if st.contactAddress.port = 0 then { st.contactAddress with port := inp.tpDefaultPort }
  else st.contactAddress

/-- `pj_sockaddr_parse` of the observed Via address (line 1969). -/
def natRecvAddr (inp : NatCheckInput) : Option Ipv4 := parseIpv4 (natViaAddr inp)

/-- The `matched` comparison (lines 1967-1978): structured socket
address comparison (`pj_sockaddr_cmp`: address bytes and port) when
the observed address parses; otherwise case-insensitive string
comparison plus port equality. -/
def natMatched (st : AccountNatState) (inp : NatCheckInput) : Bool :=
  match natRecvAddr inp with
  | some ip => decide (natContactAddr st inp = { ip := ip, port := natObservedPort inp })
  | none =>
    (natContactAddr st inp).port == natObservedPort inp &&
      strCaseEq (natContactAddr st inp).ip.render (natViaAddr inp)

/-- `SIPAccount::checkNATAddress` (lines 1909-2052): returns whether
the contact was rewritten ("changed") together with the new account
state.  The in-place `pjsip_regc_update_contact` refresh request on
the rewrite path is represented by the updated contact header. -/
def checkNATAddress (st : AccountNatState) (inp : NatCheckInput) : Bool × AccountNatState :=
  let st1 := natUpdateBookkeeping st inp
  let contact := natContactAddr st inp
  let rport := natObservedPort inp
  let recv := natRecvAddr inp
  if natMatched st inp then (false, st1)
  else
    let srv_ip := parseIpv4 inp.srcName
    if !contact.ip.isPrivate && !optIsPrivate srv_ip && optIsPrivate recv then
      (false, st1)
    else if (match recv with
             | some ip => decide (contact = SockAddr.mk ip rport)
             | none => false) && optIsPrivate recv then
      (false, st1)
    else
      let tempContact :=
        printContactHeader st.username st.displayName (natViaAddr inp) rport
          inp.tpSecure st.deviceKey
      if tempContact.isEmpty then (false, st1)
      else (true, { st1 with contactHeader := tempContact })

/-! ## Authenticated-request retry (SIPAccount::onComplete)

`sipaccount.cpp` lines 2251-2307. -/

/-- Modelled from the spec: the pjsip client authentication session
(`pjsip_auth_clt_*`, external pjsip) used by `onComplete`.
`pjsip_auth_clt_reinit_req` builds the authorization header answering
a challenge; per the spec's single-retry rule it succeeds on the first
challenge of a request and fails on any further challenge ("any
further challenge is treated as a hard authentication failure — it
must not loop"). -/
structure AuthSession where
  challengesAnswered : Nat
  deriving DecidableEq, Repr

def pjsip_auth_clt_reinit_req (s : AuthSession) : Option AuthSession :=
  if s.challengesAnswered = 0 then some { challengesAnswered := s.challengesAnswered + 1 }
  else none

/-- What one `onComplete` callback does next: resend the request with
the given CSeq value, or report the final delivery outcome to the
completion sink (`messageEngine_.onMessageSent`). -/
inductive CompleteAction where
  | resend (cseq : Nat)
  | report (success : Bool)
  deriving DecidableEq, Repr

/-- One `SIPAccount::onComplete` callback (lines 2251-2307) as a
function of the authentication session, the response status code, and
the CSeq value of the answered request: a 401/407 challenge is
answered by a resend whose CSeq is incremented by exactly one (line
2279, `cseq_hdr->cseq += 1`) re-using the same session context; when
the session cannot answer the challenge, delivery failure is reported;
any other terminal status reports success iff the code is 200 or 202
(lines 2301-2306). -/
def onCompleteStep (sess : AuthSession) (code : Int) (cseq : Nat) :
    CompleteAction × AuthSession :=
  if code = PJSIP_SC_UNAUTHORIZED ∨ code = PJSIP_SC_PROXY_AUTHENTICATION_REQUIRED then
    match pjsip_auth_clt_reinit_req sess with
    | some s' => (.resend (cseq + 1), s')
    | none => (.report false, sess)
  else
    (.report (code == PJSIP_SC_OK || code == PJSIP_SC_ACCEPTED), sess)

/-- The sequence of actions produced by one authenticated request whose
successive terminal responses are `codes`: each response triggers one
`onComplete` callback; a resend awaits the next response, a report
ends the exchange. -/
def runRequest : AuthSession → Nat → List Int → List CompleteAction
  | _, _, [] => []
  | sess, cseq, code :: rest =>
    match onCompleteStep sess code cseq with
    | (.resend ncseq, s') => .resend ncseq :: runRequest s' ncseq rest
    | (.report ok, _) => [.report ok]

def isResend : CompleteAction → Bool
  | .resend _ => true
  | .report _ => false

def countResends (acts : List CompleteAction) : Nat := acts.countP isResend

/-! ## MD5 (pj_md5, external pjlib)

Modelled from the spec: the "16-byte MD5" digest (RFC 1321),
implemented executably over byte lists; machine words are `Nat`
reduced modulo 2^32. -/

/-- Byte strings: the model of `std::string` contents. -/
abbrev ByteStr := List Nat

def add32 (a b : Nat) : Nat := (a + b) % 4294967296

def not32 (x : Nat) : Nat := 4294967295 ^^^ x

def rotl32 (x s : Nat) : Nat := ((x <<< s) ||| (x >>> (32 - s))) % 4294967296

def md5K : List Nat :=
  [0xd76aa478, 0xe8c7b756, 0x242070db, 0xc1bdceee,
   0xf57c0faf, 0x4787c62a, 0xa8304613, 0xfd469501,
   0x698098d8, 0x8b44f7af, 0xffff5bb1, 0x895cd7be,
   0x6b901122, 0xfd987193, 0xa679438e, 0x49b40821,
   0xf61e2562, 0xc040b340, 0x265e5a51, 0xe9b6c7aa,
   0xd62f105d, 0x02441453, 0xd8a1e681, 0xe7d3fbc8,
   0x21e1cde6, 0xc33707d6, 0xf4d50d87, 0x455a14ed,
   0xa9e3e905, 0xfcefa3f8, 0x676f02d9, 0x8d2a4c8a,
   0xfffa3942, 0x8771f681, 0x6d9d6122, 0xfde5380c,
   0xa4beea44, 0x4bdecfa9, 0xf6bb4b60, 0xbebfbc70,
   0x289b7ec6, 0xeaa127fa, 0xd4ef3085, 0x04881d05,
   0xd9d4d039, 0xe6db99e5, 0x1fa27cf8, 0xc4ac5665,
   0xf4292244, 0x432aff97, 0xab9423a7, 0xfc93a039,
   0x655b59c3, 0x8f0ccc92, 0xffeff47d, 0x85845dd1,
   0x6fa87e4f, 0xfe2ce6e0, 0xa3014314, 0x4e0811a1,
   0xf7537e82, 0xbd3af235, 0x2ad7d2bb, 0xeb86d391]

def md5S : List Nat :=
  [7, 12, 17, 22, 7, 12, 17, 22, 7, 12, 17, 22, 7, 12, 17, 22,
   5, 9, 14, 20, 5, 9, 14, 20, 5, 9, 14, 20, 5, 9, 14, 20,
   4, 11, 16, 23, 4, 11, 16, 23, 4, 11, 16, 23, 4, 11, 16, 23,
   6, 10, 15, 21, 6, 10, 15, 21, 6, 10, 15, 21, 6, 10, 15, 21]

structure MD5State where
  a : Nat
  b : Nat
  c : Nat
  d : Nat
  deriving DecidableEq, Repr

def md5Init : MD5State := ⟨0x67452301, 0xefcdab89, 0x98badcfe, 0x10325476⟩

/-- Little-endian 32-bit word `g` of a 64-byte chunk. -/
def md5Word (chunk : ByteStr) (g : Nat) : Nat :=
  chunk.getD (4 * g) 0 + 256 * chunk.getD (4 * g + 1) 0 +
    65536 * chunk.getD (4 * g + 2) 0 + 16777216 * chunk.getD (4 * g + 3) 0

def md5Round (chunk : ByteStr) (st : MD5State) (i : Nat) : MD5State :=
  let fg : Nat × Nat :=
    if i < 16 then ((st.b &&& st.c) ||| (not32 st.b &&& st.d), i)
    else if i < 32 then ((st.d &&& st.b) ||| (not32 st.d &&& st.c), (5 * i + 1) % 16)
    else if i < 48 then (st.b ^^^ st.c ^^^ st.d, (3 * i + 5) % 16)
    else (st.c ^^^ (st.b ||| not32 st.d), (7 * i) % 16)
  let f := add32 (add32 (add32 fg.1 st.a) (md5K.getD i 0)) (md5Word chunk fg.2)
  ⟨st.d, add32 st.b (rotl32 f (md5S.getD i 0)), st.b, st.c⟩

def md5ProcessBlock (st : MD5State) (chunk : ByteStr) : MD5State :=
  let r := (List.range 64).foldl (md5Round chunk) st
  ⟨add32 st.a r.a, add32 st.b r.b, add32 st.c r.c, add32 st.d r.d⟩

/-- The 8-byte little-endian encoding of the message bit length. -/
def md5LengthBytes (len : Nat) : ByteStr :=
  (List.range 8).map (fun i => (len * 8) % 18446744073709551616 / 256 ^ i % 256)

/-- RFC 1321 padding: a `0x80` byte, zeros up to 56 mod 64, then the
bit length. -/
def md5Pad (msg : ByteStr) : ByteStr :=
  let k := (119 - msg.length % 64) % 64
  msg ++ [128] ++ List.replicate k 0 ++ md5LengthBytes msg.length

def chunks64 : Nat → ByteStr → List ByteStr
  | 0, _ => []
  | _ + 1, [] => []
  | fuel + 1, l => l.take 64 :: chunks64 fuel (l.drop 64)

/-- Little-endian byte serialization of one 32-bit word. -/
def wordBytes (x : Nat) : ByteStr :=
  [x % 256, x / 256 % 256, x / 65536 % 256, x / 16777216 % 256]

def md5Serialize (st : MD5State) : ByteStr :=
  wordBytes st.a ++ wordBytes st.b ++ wordBytes st.c ++ wordBytes st.d

def md5 (msg : ByteStr) : ByteStr :=
  let padded := md5Pad msg
  md5Serialize ((chunks64 (padded.length / 64 + 1) padded).foldl md5ProcessBlock md5Init)

/-! ## Credential store (SIPAccount::setCredentials and
SIPAccount::Credentials::computePasswordHash)

`sipaccount.cpp` lines 1677-1738; struct at `sipaccount.h`
lines 531-543. -/

/-- `pj_val_to_hex_digit` (pjlib): lowercase hexadecimal digits, as
ASCII byte values (`'0'..'9'` are 48..57, `'a'..'f'` are 97..102). -/
def hexDigitByte (n : Nat) : Nat := if n < 10 then 48 + n else 87 + n

def byteToHex (b : Nat) : ByteStr := [hexDigitByte (b / 16), hexDigitByte (b % 16)]

/-- Lowercase hex encoding of a byte string (two digits per byte, high
nibble first, exactly as the loop at lines 1695-1696). -/
def hexLower (bytes : ByteStr) : ByteStr := (bytes.map byteToHex).flatten

/-- `SIPAccount::Credentials` (`sipaccount.h` lines 531-543): the
constructor leaves `password_h` empty. -/
structure Credentials where
  realm : ByteStr
  username : ByteStr
  password : ByteStr
  password_h : ByteStr
  deriving DecidableEq, Repr

/-- `SIPAccount::Credentials::computePasswordHash` (lines 1677-1699):
incremental MD5 over `username`, `":"`, `realm`, `":"`, `password`
(the five `pj_md5_update` calls, modelled by accumulating the hashed
bytes; 58 is the byte value of `':'`), then lowercase hex encoding of
the 16-byte digest into `password_h`. -/
def computePasswordHash (c : Credentials) : Credentials :=
  let buf0 : ByteStr := []
  let buf1 := buf0 ++ c.username
  let buf2 := buf1 ++ [58]
  let buf3 := buf2 ++ c.realm
  let buf4 := buf3 ++ [58]
  let buf5 := buf4 ++ c.password
  { c with password_h := hexLower (md5 buf5) }

/-- One entry of the input of `setCredentials`: the values found under
the realm / username / password keys of the string map (`none` when
the key is absent; absent keys default to the empty string,
lines 1716-1721). -/
structure CredEntry where
  realm : Option ByteStr
  username : Option ByteStr
  password : Option ByteStr
  deriving DecidableEq, Repr

/-- `pjsip_cred_info.data_type`: `PJSIP_CRED_DATA_PLAIN_PASSWD` or
`PJSIP_CRED_DATA_DIGEST`. -/
inductive CredDataType where
  | PLAIN_PASSWD
  | DIGEST
  deriving DecidableEq, Repr

/-- `pjsip_cred_info` as filled by `setCredentials` (lines 1726-1736). -/
structure PjsipCredInfo where
  realm : ByteStr
  scheme : ByteStr
  username : ByteStr
  data_type : CredDataType
  data : ByteStr
  deriving DecidableEq, Repr

/-- The credential state owned by the account: `credentials_` and the
derived `cred_` auth-info list. -/
structure CredState where
  credentials : List Credentials
  cred : List PjsipCredInfo
  deriving DecidableEq, Repr

/-- The byte string `"digest"`. -/
def digestStr : ByteStr := [100, 105, 103, 101, 115, 116]

/-- Construction of one stored `Credentials` entry (lines 1716-1724):
missing map keys default to empty, then the hash is precomputed when
MD5 hashing is configured. -/
def mkCredential (md5HashingEnabled : Bool) (e : CredEntry) : Credentials :=
  let base : Credentials :=
    { realm := e.realm.getD [], username := e.username.getD [],
      password := e.password.getD [], password_h := [] }
  if md5HashingEnabled then computePasswordHash base else base

/-- Construction of the parallel `pjsip_cred_info` record (lines
1726-1736): fixed `"digest"` scheme; the data is the digest tagged
`DIGEST` when `password_h` is non-empty, else the cleartext password
tagged `PLAIN_PASSWD`. -/
def mkCredInfo (c : Credentials) : PjsipCredInfo :=
  { realm := c.realm, scheme := digestStr, username := c.username,
    data_type := if c.password_h.isEmpty then .PLAIN_PASSWD else .DIGEST,
    data := if c.password_h.isEmpty then c.password else c.password_h }

/-- `SIPAccount::setCredentials` (lines 1701-1738): returns whether the
empty-list error path was taken (`JAMI_ERR` + early return) together
with the new credential state; on the error path the previous state is
returned untouched. -/
def setCredentials (md5HashingEnabled : Bool) (st : CredState)
    (creds : List CredEntry) : Bool × CredState :=
  if creds.isEmpty then (true, st)
  else
    let credentials := creds.map (mkCredential md5HashingEnabled)
    (false, { credentials := credentials, cred := credentials.map mkCredInfo })

/-! ## Helper lemmas -/

/-- C integer division by 100 yields 6 exactly on the 6xx class. -/
theorem tdiv100_eq_six_iff (c : Int) : c.tdiv 100 = 6 ↔ 600 ≤ c ∧ c ≤ 699 := by
  rcases c with n | n
  · rw [show Int.tdiv (Int.ofNat n) 100 = Int.ofNat (n / 100) from rfl]
    simp only [Int.ofNat_eq_coe]
    omega
  · rw [show Int.tdiv (Int.negSucc n) 100 = -Int.ofNat (n.succ / 100) from rfl]
    simp only [Int.ofNat_eq_coe, Int.negSucc_eq]
    push_cast
    omega

/-- The MD5 digest always has 16 bytes. -/
theorem md5_length (msg : ByteStr) : (md5 msg).length = 16 := by
  simp [md5, md5Serialize, wordBytes]

/-- Lowercase hex encoding doubles the length. -/
theorem hexLower_length (bs : ByteStr) : (hexLower bs).length = 2 * bs.length := by
  induction bs with
  | nil => rfl
  | cons b rest ih =>
    simp only [hexLower, List.map_cons, List.flatten_cons, List.length_append,
      List.length_cons, List.length_nil, byteToHex] at ih ⊢
    omega

/-! ## Claim theorems -/

/-- Claim C1: for every re-registration scheduling event, with base delay
60s on the first attempt and 300s on subsequent attempts, and for every
value drawn from the jitter distributions: if the base delay is at least
10 seconds, the normalized scheduled delay lies within
[base − 10s, base + 10s]; if the base delay is below 10 seconds, the
scheduled delay lies within [0, 10s].  (The normalized millisecond
component also lies in [0, 1000).) -/
theorem rereg_delay_jitter_bounds (attempt_cnt baseSec : Nat) (jz jp : Int)
    (hz : delay10ZeroDist jz) (hp : delay10PosDist jp) :
    reregDelayBase attempt_cnt = (if attempt_cnt = 0 then 60 else 300) ∧
    scheduleReregDelay attempt_cnt jz jp = jitteredDelay (reregDelayBase attempt_cnt) jz jp ∧
    (0 ≤ (jitteredDelay baseSec jz jp).msec ∧ (jitteredDelay baseSec jz jp).msec < 1000) ∧
    (10 ≤ baseSec →
      (baseSec : Int) * 1000 - 10000 ≤ (jitteredDelay baseSec jz jp).totalMs ∧
      (jitteredDelay baseSec jz jp).totalMs ≤ (baseSec : Int) * 1000 + 10000) ∧
    (baseSec < 10 →
      0 ≤ (jitteredDelay baseSec jz jp).totalMs ∧
      (jitteredDelay baseSec jz jp).totalMs ≤ 10000) := by
  obtain ⟨hz1, hz2⟩ := hz
  obtain ⟨hp1, hp2⟩ := hp
  refine ⟨?_, rfl, ?_, ?_, ?_⟩
  · unfold reregDelayBase REGISTRATION_RETRY_INTERVAL REGISTRATION_FIRST_RETRY_INTERVAL
    rcases eq_or_ne attempt_cnt 0 with h | h <;> simp [h]
  · unfold jitteredDelay pj_time_val_normalize
    split <;> simp <;> omega
  · intro hbase
    unfold jitteredDelay pj_time_val_normalize PjTimeVal.totalMs
    have : ((baseSec : Int) ≥ 10) := by exact_mod_cast hbase
    simp only [if_pos this]
    constructor <;> omega
  · intro hbase
    unfold jitteredDelay pj_time_val_normalize PjTimeVal.totalMs
    have : ¬ ((baseSec : Int) ≥ 10) := by
      push_neg
      exact_mod_cast hbase
    simp only [if_neg this]
    constructor <;> omega

/-- Witness for C1 at a concrete scheduling event: first attempt
(base 60s) with the extreme jitter draw −10000 ms. -/
theorem rereg_delay_jitter_bounds_witness :
    delay10ZeroDist (-10000) ∧ delay10PosDist 0 ∧
    (10 ≤ 60 →
      ((60 : Nat) : Int) * 1000 - 10000 ≤ (jitteredDelay 60 (-10000) 0).totalMs ∧
      (jitteredDelay 60 (-10000) 0).totalMs ≤ ((60 : Nat) : Int) * 1000 + 10000) :=
  ⟨by decide, by decide,
   (rereg_delay_jitter_bounds 0 60 (-10000) 0 (by decide) (by decide)).2.2.2.1⟩

/-- Claim C2: for every final REGISTER outcome processed by `onRegister`
on a usable account, a re-registration retry is scheduled if and only if
the response status code is one of 408, 500, 502, 503, 504, or any code
of the 6xx class. -/
theorem onRegister_schedules_retry_iff (usable : Bool) (p : RegcCbParam)
    (hregc : p.regcMatches = true) (husable : usable = true) :
    onRegisterSchedulesRetry usable p = true ↔
      (p.code = 408 ∨ p.code = 500 ∨ p.code = 502 ∨ p.code = 503 ∨ p.code = 504 ∨
        (600 ≤ p.code ∧ p.code ≤ 699)) := by
  subst husable
  unfold onRegisterSchedulesRetry scheduleReregistrationArms onRegister
  simp only [hregc, Bool.true_eq_false, if_false, Bool.and_true,
    PJSIP_IS_STATUS_IN_CLASS, PJSIP_SC_REQUEST_TIMEOUT, PJSIP_SC_INTERNAL_SERVER_ERROR,
    PJSIP_SC_BAD_GATEWAY, PJSIP_SC_SERVICE_UNAVAILABLE, PJSIP_SC_SERVER_TIMEOUT,
    Bool.or_eq_true, beq_iff_eq]
  rw [show ((600 : Int).tdiv 100) = 6 from rfl]
  rw [tdiv100_eq_six_iff]
  tauto

/-- Witness for C2: on a usable account, a 503 response schedules a retry
and a 403 response does not. -/
theorem onRegister_schedules_retry_iff_witness :
    (RegcCbParam.mk true 503 3600 true).regcMatches = true ∧
    onRegisterSchedulesRetry true ⟨true, 503, 3600, true⟩ = true ∧
    onRegisterSchedulesRetry true ⟨true, 403, 3600, true⟩ = false := by
  refine ⟨rfl, ?_, ?_⟩
  · exact (onRegister_schedules_retry_iff true ⟨true, 503, 3600, true⟩ rfl rfl).mpr
      (by norm_num)
  · rw [Bool.eq_false_iff, Ne, onRegister_schedules_retry_iff true ⟨true, 403, 3600, true⟩ rfl rfl]
    decide

/-- Claim C3 is refuted as stated: a transport-level registration failure
(`param->status != PJ_SUCCESS`) carrying numeric status 503 is mapped to
`ERROR_GENERIC` (line 1111), not to the per-status table's
`ERROR_SERVICE_UNAVAILABLE`. -/
theorem onRegister_transport_failure_counterexample :
    (onRegister ⟨false, 503, 0, true⟩).state =
      some (RegistrationState.ERROR_GENERIC, 503) ∧
    RegistrationState.ERROR_GENERIC ≠ RegistrationState.ERROR_SERVICE_UNAVAILABLE := by
  constructor
  · rfl
  · decide

/-- Claim C3 (amended): for every registration outcome processed by
`onRegister`, a transport-level failure destroys the local registration
bookkeeping and sets `ERROR_GENERIC` (carrying the numeric code)
regardless of the code; a non-2xx final response (code < 0 or ≥ 300 with
transport-level success) destroys the bookkeeping and maps the code per
the table 403→ERROR_AUTH, 404/408→ERROR_HOST,
503→ERROR_SERVICE_UNAVAILABLE, else ERROR_GENERIC. -/
theorem onRegister_error_state_mapping (p : RegcCbParam)
    (hregc : p.regcMatches = true) :
    (p.status_ok = false →
      (onRegister p).destroyed = true ∧
      (onRegister p).state = some (.ERROR_GENERIC, p.code)) ∧
    (p.status_ok = true → (p.code < 0 ∨ 300 ≤ p.code) →
      (onRegister p).destroyed = true ∧
      (p.code = 403 → (onRegister p).state = some (.ERROR_AUTH, p.code)) ∧
      ((p.code = 404 ∨ p.code = 408) →
        (onRegister p).state = some (.ERROR_HOST, p.code)) ∧
      (p.code = 503 →
        (onRegister p).state = some (.ERROR_SERVICE_UNAVAILABLE, p.code)) ∧
      (p.code ≠ 403 → p.code ≠ 404 → p.code ≠ 408 → p.code ≠ 503 →
        (onRegister p).state = some (.ERROR_GENERIC, p.code))) := by
  unfold onRegister
  simp only [hregc, Bool.true_eq_false, if_false,
    PJSIP_SC_FORBIDDEN, PJSIP_SC_NOT_FOUND, PJSIP_SC_REQUEST_TIMEOUT,
    PJSIP_SC_SERVICE_UNAVAILABLE]
  constructor
  · intro hfail
    simp [hfail]
  · intro hok hcode
    rw [hok]
    simp only [Bool.true_eq_false, if_false, if_pos hcode]
    refine ⟨by trivial, ?_, ?_, ?_, ?_⟩
    · intro h403
      simp [h403]
    · rintro (h | h) <;> simp [h]
    · intro h503
      simp [h503]
    · intro h403 h404 h408 h503
      simp [h403, h404, h408, h503]

/-- Witness for C3 (amended): a final 403 response destroys the
bookkeeping and maps to `ERROR_AUTH`. -/
theorem onRegister_error_state_mapping_witness :
    (onRegister ⟨true, 403, 0, true⟩).destroyed = true ∧
    (onRegister ⟨true, 403, 0, true⟩).state =
      some (RegistrationState.ERROR_AUTH, 403) := by
  have h := onRegister_error_state_mapping ⟨true, 403, 0, true⟩ rfl
  have h2 := h.2 rfl (Or.inr (by norm_num))
  exact ⟨h2.1, h2.2.1 rfl⟩

/-- Claim C4 is refuted as stated: on an empty resolution result,
`doRegister1_`'s continuation sets `ERROR_GENERIC` (with code 404,
lines 860-861), not `ERROR_HOST`. -/
theorem doRegister1_empty_resolution_counterexample :
    (doRegister1ResolveCb []).state =
      some (RegistrationState.ERROR_GENERIC, 404) ∧
    ∀ code : Int, (doRegister1ResolveCb []).state ≠
      some (RegistrationState.ERROR_HOST, code) := by
  refine ⟨rfl, ?_⟩
  intro code h
  simp [doRegister1ResolveCb] at h

/-- Claim C4 (amended): for every `register()` attempt on an account that
is not the direct-IP profile, the hostname is resolved, and if resolution
returns an empty address list the attempt fails fatally with registration
state `ERROR_GENERIC` carrying status code 404 (Not Found), and no
REGISTER request is sent (`doRegister2_`, the only branch reaching
`sendRegister()` on this path, is never entered). -/
theorem doRegister1_empty_resolution (hostname : String) (ips : List Ipv4)
    (hip : isIP2IP hostname = false) (hempty : ips = []) :
    doRegister1Path hostname = .resolve ∧
    (doRegister1ResolveCb ips).state =
      some (RegistrationState.ERROR_GENERIC, PJSIP_SC_NOT_FOUND) ∧
    (doRegister1ResolveCb ips).proceededToRegister2 = false := by
  subst hempty
  refine ⟨?_, rfl, rfl⟩
  simp [doRegister1Path, hip]

/-- Witness for C4 (amended) at a concrete account and resolution result. -/
theorem doRegister1_empty_resolution_witness :
    isIP2IP "sip.example.com" = false ∧
    (doRegister1ResolveCb []).state =
      some (RegistrationState.ERROR_GENERIC, PJSIP_SC_NOT_FOUND) ∧
    (doRegister1ResolveCb ([] : List Ipv4)).proceededToRegister2 = false :=
  ⟨by decide,
   (doRegister1_empty_resolution "sip.example.com" [] (by decide) rfl).2.1,
   (doRegister1_empty_resolution "sip.example.com" [] (by decide) rfl).2.2⟩

/-- Claim C5: for every REGISTER response whose observed address and port
(computed per the source's precedence rules) compare equal to the current
contact — structured socket-address comparison when the observed address
parses, string comparison plus port equality otherwise —
`checkNATAddress` returns "unchanged" (false) and the contact header is
not rewritten. -/
theorem checkNAT_unchanged_on_match (st : AccountNatState) (inp : NatCheckInput)
    (h : natMatched st inp = true) :
    (checkNATAddress st inp).1 = false ∧
    (checkNATAddress st inp).2.contactHeader = st.contactHeader := by
  unfold checkNATAddress
  simp [h, natUpdateBookkeeping]

/-- Witness for C5, the spec's literal case: contact = (203.0.113.5,
5060), via-received = 203.0.113.5, via-rport = 5060 — result
"unchanged", header untouched. -/
theorem checkNAT_unchanged_on_match_witness :
    natMatched
      (AccountNatState.mk ⟨⟨203, 0, 113, 5⟩, 5060⟩ "<sip:u@203.0.113.5:5060>"
        "u" "" "" "" 0 true "")
      (NatCheckInput.mk 5060 0 "" "203.0.113.5" 5060 false false "198.51.100.7") = true ∧
    (checkNATAddress
      (AccountNatState.mk ⟨⟨203, 0, 113, 5⟩, 5060⟩ "<sip:u@203.0.113.5:5060>"
        "u" "" "" "" 0 true "")
      (NatCheckInput.mk 5060 0 "" "203.0.113.5" 5060 false false "198.51.100.7")).1 = false ∧
    (checkNATAddress
      (AccountNatState.mk ⟨⟨203, 0, 113, 5⟩, 5060⟩ "<sip:u@203.0.113.5:5060>"
        "u" "" "" "" 0 true "")
      (NatCheckInput.mk 5060 0 "" "203.0.113.5" 5060 false false
        "198.51.100.7")).2.contactHeader = "<sip:u@203.0.113.5:5060>" := by
  have h := checkNAT_unchanged_on_match
    (AccountNatState.mk ⟨⟨203, 0, 113, 5⟩, 5060⟩ "<sip:u@203.0.113.5:5060>"
      "u" "" "" "" 0 true "")
    (NatCheckInput.mk 5060 0 "" "203.0.113.5" 5060 false false "198.51.100.7")
    (by decide)
  exact ⟨by decide, h.1, h.2⟩

/-- Claim C6: for every REGISTER response in which the current contact
address is public, the response's source address parses to a public
address, and the observed Via address parses to a private address,
`checkNATAddress` does not rewrite the contact header and returns
"unchanged" (false), even when the observed and current addresses
differ. -/
theorem checkNAT_unchanged_public_private (st : AccountNatState)
    (inp : NatCheckInput) (r s : Ipv4)
    (hrecv : natRecvAddr inp = some r) (hrpriv : r.isPrivate = true)
    (hcontact : (natContactAddr st inp).ip.isPrivate = false)
    (hsrc : parseIpv4 inp.srcName = some s) (hspub : s.isPrivate = false) :
    (checkNATAddress st inp).1 = false ∧
    (checkNATAddress st inp).2.contactHeader = st.contactHeader := by
  unfold checkNATAddress
  by_cases hm : natMatched st inp
  · simp [hm, natUpdateBookkeeping]
  · simp [hm, hrecv, hrpriv, hcontact, hsrc, hspub, optIsPrivate, natUpdateBookkeeping]

/-- Witness for C6, the spec's literal case: contact = (203.0.113.5,
5060) public, server source = 198.51.100.7 public, via-received =
10.0.0.4 private — result "unchanged", header untouched. -/
theorem checkNAT_unchanged_public_private_witness :
    natRecvAddr
      (NatCheckInput.mk 5060 0 "" "10.0.0.4" 5060 false false "198.51.100.7") =
      some ⟨10, 0, 0, 4⟩ ∧
    Ipv4.isPrivate ⟨10, 0, 0, 4⟩ = true ∧
    Ipv4.isPrivate ⟨203, 0, 113, 5⟩ = false ∧
    Ipv4.isPrivate ⟨198, 51, 100, 7⟩ = false ∧
    (checkNATAddress
      (AccountNatState.mk ⟨⟨203, 0, 113, 5⟩, 5060⟩ "<sip:u@203.0.113.5:5060>"
        "u" "" "" "" 0 true "")
      (NatCheckInput.mk 5060 0 "" "10.0.0.4" 5060 false false "198.51.100.7")).1 = false ∧
    (checkNATAddress
      (AccountNatState.mk ⟨⟨203, 0, 113, 5⟩, 5060⟩ "<sip:u@203.0.113.5:5060>"
        "u" "" "" "" 0 true "")
      (NatCheckInput.mk 5060 0 "" "10.0.0.4" 5060 false false
        "198.51.100.7")).2.contactHeader = "<sip:u@203.0.113.5:5060>" := by
  have h := checkNAT_unchanged_public_private
    (AccountNatState.mk ⟨⟨203, 0, 113, 5⟩, 5060⟩ "<sip:u@203.0.113.5:5060>"
      "u" "" "" "" 0 true "")
    (NatCheckInput.mk 5060 0 "" "10.0.0.4" 5060 false false "198.51.100.7")
    ⟨10, 0, 0, 4⟩ ⟨198, 51, 100, 7⟩
    (by decide) (by decide) (by decide) (by decide) (by decide)
  exact ⟨by decide, by decide, by decide, by decide, h.1, h.2⟩

/-- Once a challenge has been answered in a request's auth session, no
further challenge is answered: the remainder of the exchange contains no
resend. -/
theorem runRequest_no_resend_after_answered (sess : AuthSession) (cseq : Nat)
    (codes : List Int) (h : sess.challengesAnswered ≠ 0) :
    countResends (runRequest sess cseq codes) = 0 := by
  induction codes generalizing sess cseq with
  | nil => simp [runRequest, countResends]
  | cons c rest ih =>
    unfold runRequest onCompleteStep pjsip_auth_clt_reinit_req
    by_cases hc : c = PJSIP_SC_UNAUTHORIZED ∨ c = PJSIP_SC_PROXY_AUTHENTICATION_REQUIRED
    · simp [hc, h, countResends, isResend]
    · simp [hc, countResends, isResend]

/-- Any authenticated request performs at most one resend, whatever the
sequence of responses. -/
theorem runRequest_resends_le_one (sess : AuthSession) (cseq : Nat)
    (codes : List Int) : countResends (runRequest sess cseq codes) ≤ 1 := by
  cases codes with
  | nil => simp [runRequest, countResends]
  | cons c rest =>
    unfold runRequest onCompleteStep pjsip_auth_clt_reinit_req
    by_cases hc : c = PJSIP_SC_UNAUTHORIZED ∨ c = PJSIP_SC_PROXY_AUTHENTICATION_REQUIRED
    · by_cases hz : sess.challengesAnswered = 0
      · have h0 := runRequest_no_resend_after_answered
          ⟨sess.challengesAnswered + 1⟩ (cseq + 1) rest (by simp)
        simp [hc, hz, countResends, isResend, List.countP_cons] at h0 ⊢
        exact h0
      · simp [hc, hz, countResends, isResend]
    · simp [hc, countResends, isResend]

/-- Claim C7: a 401/407 challenge triggers exactly one resend whose CSeq
is the original value incremented by exactly 1; a second consecutive
challenge on the resend terminates with a delivery failure report and no
further resend; and no response sequence whatsoever produces more than
one resend. -/
theorem auth_retry_exactly_once (cseq : Nat) (c1 c2 : Int)
    (h1 : c1 = 401 ∨ c1 = 407) (h2 : c2 = 401 ∨ c2 = 407) :
    runRequest ⟨0⟩ cseq [c1, c2] =
      [CompleteAction.resend (cseq + 1), CompleteAction.report false] ∧
    countResends (runRequest ⟨0⟩ cseq [c1, c2]) = 1 ∧
    (∀ codes : List Int, countResends (runRequest ⟨0⟩ cseq codes) ≤ 1) := by
  have hrun : runRequest ⟨0⟩ cseq [c1, c2] =
      [CompleteAction.resend (cseq + 1), CompleteAction.report false] := by
    rcases h1 with h1 | h1 <;> rcases h2 with h2 | h2 <;> subst h1 <;> subst h2 <;>
      simp [runRequest, onCompleteStep, pjsip_auth_clt_reinit_req,
        PJSIP_SC_UNAUTHORIZED, PJSIP_SC_PROXY_AUTHENTICATION_REQUIRED]
  refine ⟨hrun, ?_, fun codes => runRequest_resends_le_one ⟨0⟩ cseq codes⟩
  rw [hrun]
  simp [countResends, isResend]

/-- Witness for C7: two consecutive 401 responses to a request whose
original CSeq is 10. -/
theorem auth_retry_exactly_once_witness :
    ((401 : Int) = 401 ∨ (401 : Int) = 407) ∧
    runRequest ⟨0⟩ 10 [401, 401] =
      [CompleteAction.resend 11, CompleteAction.report false] :=
  ⟨Or.inl rfl, (auth_retry_exactly_once 10 401 401 (Or.inl rfl) (Or.inl rfl)).1⟩

/-- Claim C8: `setCredentials` applied to an empty list takes the error
path and leaves the previously stored credential list and the derived
auth-info records exactly as they were. -/
theorem setCredentials_empty_noop (md5HashingEnabled : Bool) (st : CredState) :
    setCredentials md5HashingEnabled st [] = (true, st) := by
  simp [setCredentials]

/-- Claim C9: every credential entry stored by `setCredentials` with
hash-based storage configured gets a precomputed digest equal to the
lowercase hex encoding (exactly 32 characters) of the 16-byte MD5 of
`username ':' realm ':' password`, and its auth-info record carries that
digest tagged as digest data; without hash-based storage the auth-info
record carries the cleartext password tagged as plaintext. -/
theorem credential_hash_spec (en : Bool) (st : CredState)
    (entries : List CredEntry) (hne : entries ≠ []) (i : Nat)
    (hi : i < (setCredentials en st entries).2.credentials.length) :
    (setCredentials en st entries).2.cred.length =
      (setCredentials en st entries).2.credentials.length ∧
    (en = true →
      ((setCredentials en st entries).2.credentials.getD i ⟨[], [], [], []⟩).password_h =
        hexLower (md5
          (((setCredentials en st entries).2.credentials.getD i ⟨[], [], [], []⟩).username ++
            [58] ++
            ((setCredentials en st entries).2.credentials.getD i ⟨[], [], [], []⟩).realm ++
            [58] ++
            ((setCredentials en st entries).2.credentials.getD i ⟨[], [], [], []⟩).password)) ∧
      ((setCredentials en st entries).2.credentials.getD i ⟨[], [], [], []⟩).password_h.length = 32 ∧
      (setCredentials en st entries).2.cred.getD i ⟨[], [], [], .PLAIN_PASSWD, []⟩ =
        ⟨((setCredentials en st entries).2.credentials.getD i ⟨[], [], [], []⟩).realm,
          digestStr,
          ((setCredentials en st entries).2.credentials.getD i ⟨[], [], [], []⟩).username,
          .DIGEST,
          ((setCredentials en st entries).2.credentials.getD i ⟨[], [], [], []⟩).password_h⟩) ∧
    (en = false →
      (setCredentials en st entries).2.cred.getD i ⟨[], [], [], .PLAIN_PASSWD, []⟩ =
        ⟨((setCredentials en st entries).2.credentials.getD i ⟨[], [], [], []⟩).realm,
          digestStr,
          ((setCredentials en st entries).2.credentials.getD i ⟨[], [], [], []⟩).username,
          .PLAIN_PASSWD,
          ((setCredentials en st entries).2.credentials.getD i ⟨[], [], [], []⟩).password⟩) := by
  have hemp : entries.isEmpty = false := by
    cases entries with
    | nil => exact absurd rfl hne
    | cons e rest => rfl
  simp only [setCredentials, hemp, Bool.false_eq_true, if_false] at hi ⊢
  rw [List.length_map] at hi
  have hgetc :
      (entries.map (mkCredential en)).getD i ⟨[], [], [], []⟩ =
        mkCredential en (entries.get ⟨i, hi⟩) := by
    rw [List.getD_eq_getElem _ _ (by simpa using hi)]
    simp [List.getElem_map]
  have hgeti :
      ((entries.map (mkCredential en)).map mkCredInfo).getD i
          ⟨[], [], [], .PLAIN_PASSWD, []⟩ =
        mkCredInfo (mkCredential en (entries.get ⟨i, hi⟩)) := by
    rw [List.getD_eq_getElem _ _ (by simpa using hi)]
    simp [List.getElem_map]
  refine ⟨by simp, ?_, ?_⟩
  · intro hen
    subst hen
    rw [hgetc, hgeti]
    set e := entries.get ⟨i, hi⟩ with he
    have hlen :
        (mkCredential true e).password_h.length = 32 := by
      simp [mkCredential, computePasswordHash, hexLower_length, md5_length]
    have hnonempty : (mkCredential true e).password_h.isEmpty = false := by
      cases hpw : (mkCredential true e).password_h with
      | nil => rw [hpw] at hlen; simp at hlen
      | cons a l => rfl
    refine ⟨?_, hlen, ?_⟩
    · simp [mkCredential, computePasswordHash]
    · simp [mkCredInfo, hnonempty]
  · intro hen
    subst hen
    rw [hgetc, hgeti]
    simp [mkCredential, mkCredInfo]

/-- Witness for C9: one credential entry (realm `"r"`, username `"u"`,
password `"p"`, as byte strings) stored with hashing enabled. -/
theorem credential_hash_spec_witness :
    (([⟨some [114], some [117], some [112]⟩] : List CredEntry) ≠ []) ∧
    0 < (setCredentials true ⟨[], []⟩
          [⟨some [114], some [117], some [112]⟩]).2.credentials.length ∧
    ((setCredentials true ⟨[], []⟩
        [⟨some [114], some [117], some [112]⟩]).2.credentials.getD 0
        ⟨[], [], [], []⟩).password_h.length = 32 := by
  have h := credential_hash_spec true ⟨[], []⟩
    [⟨some [114], some [117], some [112]⟩] (by decide) 0
    (by simp [setCredentials])
  exact ⟨by decide, by simp [setCredentials], (h.2.1 rfl).2.1⟩

/-- Claim C10: `isIP2IP()` returns true iff the configured hostname is
the empty string; the direct-IP profile is exactly an account with empty
hostname, it skips the unREGISTER in `doUnregister`, and it takes the
no-resolution path of `doRegister1_`. -/
theorem isIP2IP_iff_hostname_empty (hostname : String) :
    (isIP2IP hostname = true ↔ hostname = "") ∧
    (doUnregister hostname).sentUnregister = !(isIP2IP hostname) ∧
    (doRegister1Path hostname = DoRegister1Path.directIp ↔ hostname = "") := by
  refine ⟨by simp [isIP2IP, String.isEmpty_iff], rfl, ?_⟩
  unfold doRegister1Path isIP2IP
  by_cases h : hostname = ""
  · subst h
    simp [String.isEmpty_iff]
  · have hb : hostname.isEmpty = false := by
      rw [Bool.eq_false_iff, Ne, String.isEmpty_iff]
      exact h
    simp [hb, h]

end SipAccount
